import Mathlib

/-!
Verification of the go-smtpd SMTP server core (`smtpd/smtpd.go`) against its
natural-language specification.

The Go code is shallowly embedded: command lines are `List Char` (one decoded
rune per element; every claim at issue concerns ASCII data), the per-session
state machine of `(*session).serve` is a step function over an explicit
session state, and the embedder-supplied callbacks (`OnNewMail`,
`Envelope.AddRecipient`, `Envelope.BeginData`, `Envelope.Write`,
`Envelope.Close`, and the TLS handshake) are modelled by an oracle supplying
their results, since their behaviour is chosen by the embedder.
-/

namespace Smtpd

/-- Shorthand: a wire line / string, one decoded rune per element. -/
def L (s : String) : List Char := s.toList

/-- `strings.ToUpper` restricted to ASCII (every byte compared against in the
server is ASCII; `Char.toUpper` agrees with Go on ASCII letters). -/
def goToUpper (l : List Char) : List Char := l.map Char.toUpper

/-- `strings.ToLower` restricted to ASCII, as used by `addrString.Hostname`. -/
def goToLower (l : List Char) : List Char := l.map Char.toLower

/-- `unicode.IsSpace` on the code points that can appear in a decoded line
(the Go White_Space table; finitely many code points). -/
def goIsSpace (c : Char) : Bool :=
  c = ' ' ∨ c = '\t' ∨ c = '\n' ∨ c = Char.ofNat 11 ∨ c = Char.ofNat 12 ∨ c = '\r' ∨
  c = Char.ofNat 0x85 ∨ c = Char.ofNat 0xA0 ∨ c = Char.ofNat 0x1680 ∨
  (0x2000 ≤ c.toNat ∧ c.toNat ≤ 0x200A) ∨ c = Char.ofNat 0x2028 ∨ c = Char.ofNat 0x2029 ∨
  c = Char.ofNat 0x202F ∨ c = Char.ofNat 0x205F ∨ c = Char.ofNat 0x3000

/-- `strings.TrimRightFunc l unicode.IsSpace`. -/
def trimRightSpace (l : List Char) : List Char :=
  ((l.reverse.dropWhile goIsSpace)).reverse

/-- `strings.HasSuffix (string cl) "\r\n"`: the line ends in CRLF (the last
character is LF and the one before it CR). -/
def hasSuffixCRLF (l : List Char) : Bool :=
  match l.reverse with
  | a :: b :: _ => a == '\n' && b == '\r'
  | _ => false

/-- `cmdLine.Verb`: the upper-cased text before the first space, or, when no
space occurs, before the trailing CRLF (`s[:len(s)-2]`; the Go slice is taken
only on lines already known to end in CRLF, where it never underflows). -/
def verb (l : List Char) : List Char :=
  if l.contains ' ' then goToUpper (l.takeWhile (· ≠ ' '))
  else goToUpper (l.dropLast.dropLast)

/-- `cmdLine.Arg`: for a line with a space, `s[idx+1 : len(s)-2]` (the text
after the first space and before the trailing CRLF) with trailing white space
trimmed; otherwise empty.  On a CRLF-terminated line the Go slice equals
dropping the last two characters of the remainder after the first space. -/
def arg (l : List Char) : List Char :=
  if l.contains ' ' then
    trimRightSpace (((l.dropWhile (· ≠ ' ')).tail).dropLast.dropLast)
  else []

/-- `cmdLine.checkValid`: framing (CRLF) check, then the RFC 5321 s4.1.1
no-argument check for RSET/DATA/QUIT.  Returns the Go error message. -/
def checkValid (l : List Char) : Option String :=
  if hasSuffixCRLF l then
    if (verb l = L "RSET" ∨ verb l = L "DATA" ∨ verb l = L "QUIT") ∧ arg l ≠ [] then
      some "unexpected argument"
    else none
  else some "line doesn\x27t end in \\r\\n"

/-- Case-insensitive literal match: consumes `pat` (given lower-case) from the
front of `l`, returning the remainder.  Models the `[Ff][Rr]...` regex parts. -/
def matchCI (pat l : List Char) : Option (List Char) :=
  match pat, l with
  | [], rest => some rest
  | _ :: _, [] => none
  | p :: ps, c :: cs => if c.toLower = p then matchCI ps cs else none

/-- `mailFromRE = ^[Ff][Rr][Oo][Mm]:<([^>]*)>(.*)$` applied by
`FindStringSubmatch`: returns (addr capture, params capture).  `[^>]*` stops at
the first `>`; `(.*)$` cannot cross a newline (RE2 `.` excludes `\n` and `$`
anchors at end of text), so a newline in the tail makes the match fail. -/
def mailFromMatch (a : List Char) : Option (List Char × List Char) :=
  match matchCI (L "from:<") a with
  | none => none
  | some rest =>
    match rest.dropWhile (· ≠ '>') with
    | '>' :: params =>
      if params.contains '\n' then none
      else some (rest.takeWhile (· ≠ '>'), params)
    | _ => none

/-- `rcptToRE = ^[Tt][Oo]:<(.+)>`: greedy `(.+)` (which cannot cross a
newline) followed by `>`: the capture is the longest newline-free, non-empty
prefix of the remainder that is followed by a `>`. -/
def rcptToMatch (a : List Char) : Option (List Char) :=
  match matchCI (L "to:<") a with
  | none => none
  | some rest =>
    let pref := rest.takeWhile (· ≠ '\n')
    let k := (pref.reverse.takeWhile (· ≠ '>')).length
    if k = pref.length then none         -- no '>' at all
    else
      let i := pref.length - k - 1       -- index of the last '>'
      if 1 ≤ i then some (pref.take i) else none

/-- `mailSizeRE = [Ss][Ii][Zz][Ee]=(\d+)` applied by `FindStringSubmatch`:
leftmost position where `size=` (case-insensitive) is followed by at least one
ASCII digit; the capture is the maximal digit run there. -/
def mailSizeFind : List Char → Option (List Char)
  | [] => none
  | c :: rest =>
    match matchCI (L "size=") (c :: rest) with
    | some r =>
      let ds := r.takeWhile Char.isDigit
      if ds.isEmpty then mailSizeFind rest else some ds
    | none => mailSizeFind rest

/-- Numeric value of a digit string. -/
def digitsToNat (l : List Char) : Nat :=
  l.foldl (fun a c => a * 10 + (c.toNat - 48)) 0

/-- `strconv.Atoi` on the regex capture (a digit run, hence no sign), for the
64-bit `int` of the reference platform: fails (ErrRange) above 2^63 - 1. -/
def goAtoi (l : List Char) : Option Nat :=
  if l ≠ [] ∧ l.all Char.isDigit then
    if digitsToNat l ≤ 9223372036854775807 then some (digitsToNat l) else none
  else none

/-- `addrString.Email`: the address as provided. -/
def emailOf (a : List Char) : List Char := a

/-- `addrString.Hostname`: `strings.Index(e, "@")` finds the FIRST `@`; the
result is the lower-cased text after it, or empty when there is no `@`. -/
def hostnameOf (a : List Char) : List Char :=
  if a.contains '@' then goToLower ((a.dropWhile (· ≠ '@')).tail) else []

/-- Result of the `case "MAIL"` argument processing in `(*session).serve`:
regex mismatch → `501 5.1.7`; a SIZE capture that `strconv.Atoi` rejects →
`501 5.5.4`; otherwise `handleMailFrom` is invoked with the address and the
optional parsed size. -/
inductive MailOutcome
  | badAddr
  | badSize
  | proceed (addr : List Char) (size : Option Nat)
deriving DecidableEq

/-- The `case "MAIL"` argument scan of `(*session).serve` (lines 253–272):
`mailFromRE` first, then — only when the params capture is non-empty —
`mailSizeRE` and `strconv.Atoi`. -/
def processMailArg (a : List Char) : MailOutcome :=
  match mailFromMatch a with
  | none => .badAddr
  | some (addr, params) =>
    if 0 < params.length then
      match mailSizeFind params with
      | some ds =>
        match goAtoi ds with
        | some n => .proceed addr (some n)
        | none => .badSize
      | none => .proceed addr none
    else .proceed addr none

/-- The server configuration fields `serve`/`handleHello` read.  `hostname`
stands for the value `srv.hostname()` resolves to (announced hostname). -/
structure ServerCfg where
  hostname : String
  plainAuth : Bool
  tlsPresent : Bool
  maxSize : Int
deriving DecidableEq

/-- The reply lines `handleHello` writes, for HELO and EHLO alike: a `250-`
hostname line, then the extension lines in source order, ending `250 DSN`. -/
def helloReplyLines (srv : ServerCfg) : List String :=
  ("250-" ++ srv.hostname) ::
    ((if srv.plainAuth then ["250-AUTH PLAIN"] else []) ++
     (if srv.tlsPresent then ["250-STARTTLS"] else []) ++
     (if srv.maxSize ≠ 0 then ["250-SIZE " ++ toString srv.maxSize] else []) ++
     ["250-PIPELINING", "250-ENHANCEDSTATUSCODES", "250-8BITMIME", "250 DSN"])

/-- An error returned by an embedder callback or envelope operation: either an
`SMTPError` (whose text is a complete reply line) or any other ("plain")
error. -/
inductive GoErr
  | smtp (msg : String)
  | plain (msg : String)
deriving DecidableEq

/-- `(*session).sendSMTPErrorOrLinef`: an `SMTPError` is sent verbatim,
otherwise the fallback line is sent. -/
def smtpErrorOr (e : GoErr) (fallback : String) : String :=
  match e with
  | .smtp m => m
  | .plain _ => fallback

/-- Oracle for the embedder-controlled results consulted while processing one
command: `OnNewMail` (`none` = envelope returned without error),
`AddRecipient`, `BeginData`, the successive `Write` results for the DATA body
(`writes` is consumed one entry per body line; an exhausted list means
success), `Close`, and the TLS handshake outcome. -/
structure OracleCmd where
  newMail : Option GoErr
  addRcpt : Option GoErr
  beginData : Option GoErr
  writes : List (Option GoErr)
  close : Option GoErr
  tlsOk : Bool
  tlsErr : GoErr
deriving DecidableEq

/-- The always-succeeding oracle. -/
def dO : OracleCmd := ⟨none, none, none, [], none, true, .plain ""⟩

/-- The mutable per-session fields of `session` the claims concern:
`env` modelled by its nullness, plus `helloType` and `helloHost`. -/
structure SessionSt where
  envSet : Bool
  helloType : List Char
  helloHost : List Char
deriving DecidableEq

/-- Fresh session state (`newSession`). -/
def initSt : SessionSt := ⟨false, [], []⟩

/-- `s.env = nil`. -/
def clearEnv (st : SessionSt) : SessionSt := ⟨false, st.helloType, st.helloHost⟩

/-- `s.env = env` (a non-nil envelope was installed). -/
def setEnv (st : SessionSt) : SessionSt := ⟨true, st.helloType, st.helloHost⟩

/-- What one processed command did, as far as the envelope lifecycle is
observable: which commands were accepted/rejected and how a DATA phase
ended. -/
inductive Event
  | plainCmd            -- any command that leaves the envelope alone
  | badLine             -- checkValid failed: 500, command ignored
  | hello               -- HELO/EHLO processed
  | mailAccepted        -- OnNewMail returned an envelope without error
  | mailRejected        -- OnNewMail errored: 451, connection force-closed
  | rset
  | quit
  | dataBeginSmtpErr    -- BeginData returned an SMTPError (reply, env kept)
  | dataBeginPlainErr   -- BeginData returned a plain error (no reply, env cleared)
  | dataWriteErr        -- a Write failed mid-body (reply, env kept)
  | dataReadErr         -- read error/EOF while reading the body
  | dataClosedOk        -- terminator reached, Close succeeded (env cleared)
  | dataClosedSmtpErr   -- terminator reached, Close returned SMTPError (env kept)
  | dataClosedPlainErr  -- terminator reached, Close returned plain error (env cleared)
deriving DecidableEq

/-- Trace record for one processed command: every reply line sent while
handling it, every body line delivered to `Envelope.Write`, the event, and the
session state immediately after. -/
structure CmdTrace where
  replies : List String
  delivered : List (List Char)
  ev : Event
  st : SessionSt
deriving DecidableEq

/-- Control mode of the serve loop: reading commands, reading a DATA body
(with the remaining `Write` oracle, the pending `Close` result, and the
replies/delivered lines accumulated for this DATA command), or session
over. -/
inductive Mode
  | cmd (st : SessionSt)
  | data (st : SessionSt) (writes : List (Option GoErr)) (close : Option GoErr)
      (acc : List String) (ds : List (List Char))
  | done
deriving DecidableEq

/-- The envelope nullness a mode carries. -/
def envOfMode : Mode → Bool
  | .cmd st => st.envSet
  | .data st _ _ _ _ => st.envSet
  | .done => false

/-- The line `['.', CR, LF]` that terminates a DATA body. -/
def dotCRLF : List Char := ['.', '\r', '\n']

/-- The dot-unstuffing step of `handleData`: `if sl[0] == '.' { sl = sl[1:] }`
(the Go index is justified by the reader postcondition, see the C10 claim). -/
def unstuff (l : List Char) : List Char :=
  if l.head? = some '.' then l.tail else l

/-- The cases of the verb switch in `(*session).serve` (`HELO` and `EHLO`
share a case). -/
inductive VerbTag
  | hello | starttls | quit | rset | noop | mail | rcpt | dataCmd | unknown
deriving DecidableEq

/-- Which switch case a (upper-cased) verb selects. -/
def verbTag (v : List Char) : VerbTag :=
  if v = L "HELO" ∨ v = L "EHLO" then .hello
  else if v = L "STARTTLS" then .starttls
  else if v = L "QUIT" then .quit
  else if v = L "RSET" then .rset
  else if v = L "NOOP" then .noop
  else if v = L "MAIL" then .mail
  else if v = L "RCPT" then .rcpt
  else if v = L "DATA" then .dataCmd
  else .unknown

/-- End of DATA (`break` then `s.env.Close()` in `handleData`): `Close`
succeeding yields `250 2.0.0 Ok: queued` and clears the envelope; an
`SMTPError` from `Close` is sent and keeps the envelope (`handleError`); a
plain error from `Close` sends nothing and clears the envelope. -/
def dataCloseStep (st : SessionSt) (acc : List String) (ds : List (List Char)) :
    Option GoErr → Mode × List CmdTrace
  | none =>
    (.cmd (clearEnv st),
     [⟨acc ++ ["250 2.0.0 Ok: queued"], ds, .dataClosedOk, clearEnv st⟩])
  | some (.smtp msg) => (.cmd st, [⟨acc ++ [msg], ds, .dataClosedSmtpErr, st⟩])
  | some (.plain _) =>
    (.cmd (clearEnv st), [⟨acc, ds, .dataClosedPlainErr, clearEnv st⟩])

/-- A body line delivered to `s.env.Write(sl)` in `handleData`, dispatching on
the pending `Write` results: success keeps reading; an error sends the
SMTP-error-or-`550 ??? failed` reply and returns to the command loop with the
envelope untouched. -/
def dataWriteStep (st : SessionSt) (cl : Option GoErr) (acc : List String)
    (ds : List (List Char)) (sl : List Char) :
    List (Option GoErr) → Mode × List CmdTrace
  | [] => (.data st [] cl acc (ds ++ [sl]), [])
  | none :: ws2 => (.data st ws2 cl acc (ds ++ [sl]), [])
  | some e :: _ =>
    (.cmd st,
     [⟨acc ++ [smtpErrorOr e "550 ??? failed"], ds ++ [sl], .dataWriteErr, st⟩])

/-- `handleMailFrom` after a successful `mailFromRE` parse: the nested-MAIL
check, then `OnNewMail`; rejection sends `451 denied` and force-closes the
connection, success installs the envelope and replies `250 2.1.0 Ok`. -/
def newMailStep (st : SessionSt) : Option GoErr → Mode × List CmdTrace
  | some _ => (.done, [⟨["451 denied"], [], .mailRejected, st⟩])
  | none => (.cmd (setEnv st), [⟨["250 2.1.0 Ok"], [], .mailAccepted, setEnv st⟩])

/-- The `case "MAIL"` dispatch on the parsed argument (see `processMailArg`). -/
def mailStep (st : SessionSt) (o : OracleCmd) : MailOutcome → Mode × List CmdTrace
  | .badAddr =>
    (.cmd st, [⟨["501 5.1.7 Bad sender address syntax"], [], .plainCmd, st⟩])
  | .badSize =>
    (.cmd st,
     [⟨["501 5.5.4 Syntax error in parameters or arguments (invalid SIZE parameter)"],
       [], .plainCmd, st⟩])
  | .proceed _ _ =>
    if st.envSet then
      (.cmd st, [⟨["503 5.5.1 Error: nested MAIL command"], [], .plainCmd, st⟩])
    else newMailStep st o.newMail

/-- `handleRcpt` after the env-nil check, dispatching on the `rcptToRE` match
and the `AddRecipient` result. -/
def rcptStep (st : SessionSt) (o : OracleCmd) :
    Option (List Char) → Mode × List CmdTrace
  | none => (.cmd st, [⟨["501 5.1.7 Bad sender address syntax"], [], .plainCmd, st⟩])
  | some _ =>
    match o.addRcpt with
    | some e => (.cmd st, [⟨[smtpErrorOr e "550 bad recipient"], [], .plainCmd, st⟩])
    | none => (.cmd st, [⟨["250 2.1.0 Ok"], [], .plainCmd, st⟩])

/-- `handleData` after the env-nil check: `BeginData` SMTPError → its reply,
envelope kept; plain error → no reply (`handleError` only logs), envelope
cleared; success → `354 Go ahead` and the body-reading mode. -/
def beginDataStep (st : SessionSt) (ws : List (Option GoErr)) (cl : Option GoErr) :
    Option GoErr → Mode × List CmdTrace
  | some (.smtp msg) => (.cmd st, [⟨[msg], [], .dataBeginSmtpErr, st⟩])
  | some (.plain _) => (.cmd (clearEnv st), [⟨[], [], .dataBeginPlainErr, clearEnv st⟩])
  | none => (.data st ws cl ["354 Go ahead"] [], [])

/-- The verb switch of `(*session).serve` on a valid command line. -/
def verbStep (srv : ServerCfg) (st : SessionSt) (l : List Char) (o : OracleCmd) :
    VerbTag → Mode × List CmdTrace
  | .hello =>
    (.cmd ⟨st.envSet, verb l, arg l⟩,
     [⟨helloReplyLines srv, [], .hello, ⟨st.envSet, verb l, arg l⟩⟩])
  | .starttls =>
    if srv.tlsPresent then
      if o.tlsOk then
        (.cmd st, [⟨["220 Ready to start TLS"], [], .plainCmd, st⟩])
      else
        (.cmd st,
         [⟨["220 Ready to start TLS",
            smtpErrorOr o.tlsErr "403 4.7.0 TLS handshake failed"],
           [], .plainCmd, st⟩])
    else (.cmd st, [⟨["502 5.5.2 Error: command not recognized"], [], .plainCmd, st⟩])
  | .quit => (.done, [⟨["221 2.0.0 Bye"], [], .quit, st⟩])
  | .rset => (.cmd (clearEnv st), [⟨["250 2.0.0 OK"], [], .rset, clearEnv st⟩])
  | .noop => (.cmd st, [⟨["250 2.0.0 OK"], [], .plainCmd, st⟩])
  | .mail => mailStep st o (processMailArg (arg l))
  | .rcpt =>
    if st.envSet then rcptStep st o (rcptToMatch (arg l))
    else (.cmd st, [⟨["503 5.5.1 Error: need MAIL command"], [], .plainCmd, st⟩])
  | .dataCmd =>
    if st.envSet then beginDataStep st o.writes o.close o.beginData
    else (.cmd st, [⟨["503 5.5.1 Error: need RCPT command"], [], .plainCmd, st⟩])
  | .unknown =>
    (.cmd st, [⟨["502 5.5.2 Error: command not recognized"], [], .plainCmd, st⟩])

/-- `checkValid` gate of the serve loop: an invalid line is answered with
`500 <err>` and skipped (`continue`); a valid one reaches the verb switch. -/
def checkStep (srv : ServerCfg) (st : SessionSt) (l : List Char) (o : OracleCmd) :
    Option String → Mode × List CmdTrace
  | some msg => (.cmd st, [⟨["500 " ++ msg], [], .badLine, st⟩])
  | none => verbStep srv st l o (verbTag (verb l))

/-- One received line processed by the serve loop of `(*session).serve` /
`(*session).handleData`: returns the next mode and the completed command
trace entries it emits (none while a DATA body is still being read). -/
def runStep (srv : ServerCfg) (m : Mode) (lo : List Char × OracleCmd) :
    Mode × List CmdTrace :=
  match m with
  | .done => (.done, [])
  | .data st ws cl acc ds =>
    if lo.1 = dotCRLF then dataCloseStep st acc ds cl
    else dataWriteStep st cl acc ds (unstuff lo.1) ws
  | .cmd st => checkStep srv st lo.1 lo.2 (checkValid lo.1)

/-- The serve loop over the received lines.  Exhaustion of the input is the
read error/EOF that ends the session; when it happens mid-DATA the pending
DATA command is recorded with a `dataReadErr` event. -/
def serveAux (srv : ServerCfg) (m : Mode) : List (List Char × OracleCmd) → List CmdTrace
  | [] =>
    match m with
    | .data st _ _ acc ds => [⟨acc, ds, .dataReadErr, st⟩]
    | _ => []
  | lo :: rest =>
    (runStep srv m lo).2 ++ serveAux srv (runStep srv m lo).1 rest

/-- A whole session from the initial state: the per-command trace. -/
def serveTrace (srv : ServerCfg) (input : List (List Char × OracleCmd)) : List CmdTrace :=
  serveAux srv (.cmd initSt) input

/-! ## The envelope lifecycle (claim C1) -/

/-- Envelope nullness predicted from the events, as the CODE behaves: a MAIL
acceptance sets it; RSET, a terminal DATA whose `Close` succeeded or failed
with a plain error, and a plain `BeginData` error clear it (`handleError`);
an SMTPError from `Close` or `BeginData` keeps it; QUIT ends the session
without touching the field. -/
def amendedStep (b : Bool) : Event → Bool
  | .plainCmd => b
  | .badLine => b
  | .hello => b
  | .mailAccepted => true
  | .mailRejected => false
  | .rset => false
  | .quit => b
  | .dataBeginSmtpErr => b
  | .dataBeginPlainErr => false
  | .dataWriteErr => b
  | .dataReadErr => b
  | .dataClosedOk => false
  | .dataClosedSmtpErr => b
  | .dataClosedPlainErr => false

/-- Envelope nullness predicted from the events as the CLAIM states it:
set by an accepted MAIL FROM, cleared by RSET, QUIT and any terminal DATA
(terminator reached and close handled), and by nothing else. -/
def claimStep (b : Bool) : Event → Bool
  | .plainCmd => b
  | .badLine => b
  | .hello => b
  | .mailAccepted => true
  | .mailRejected => b
  | .rset => false
  | .quit => false
  | .dataBeginSmtpErr => b
  | .dataBeginPlainErr => b
  | .dataWriteErr => b
  | .dataReadErr => b
  | .dataClosedOk => false
  | .dataClosedSmtpErr => false
  | .dataClosedPlainErr => false

/-- The envelope field tracks a history fold `f` along a trace: after each
command the recorded envelope nullness equals `f` applied to the predicted
value so far and the event of the command. -/
def tracksB (f : Bool → Event → Bool) : Bool → List CmdTrace → Bool
  | _, [] => true
  | b, e :: tr => (e.st.envSet == f b e.ev) && tracksB f (f b e.ev) tr

/-! ## Spec-side definitions and claim statements -/

/-- Prefixing rule of a multi-line reply as the spec words it (§3, §4.6):
`code-` on every line but the last, `code ` (with a space) on the last. -/
def addPrefixes (code : String) : List String → List String
  | [] => []
  | [c] => [code ++ " " ++ c]
  | c :: cs => (code ++ "-" ++ c) :: addPrefixes code cs

/-- Modelled from the spec (§4.6): the EHLO reply is a multi-line `250` whose
first line is the hostname, followed, in this order and only when enabled, by
`AUTH PLAIN`, `STARTTLS`, `SIZE <n>`, then always `PIPELINING`,
`ENHANCEDSTATUSCODES`, `8BITMIME`, `DSN`. -/
def specEhloReply (srv : ServerCfg) : List String :=
  addPrefixes "250"
    ([srv.hostname] ++
     (if srv.plainAuth then ["AUTH PLAIN"] else []) ++
     (if srv.tlsPresent then ["STARTTLS"] else []) ++
     (if srv.maxSize ≠ 0 then ["SIZE " ++ toString srv.maxSize] else []) ++
     ["PIPELINING", "ENHANCEDSTATUSCODES", "8BITMIME", "DSN"])

/-- Modelled from the spec (claim C4): the `<value>` of the first
`SIZE=<value>` parameter occurring in the parameter text, the value running to
the next space (ESMTP parameters are space-delimited). -/
def specSizeValue : List Char → Option (List Char)
  | [] => none
  | c :: rest =>
    match matchCI (L "size=") (c :: rest) with
    | some r => some (r.takeWhile (· ≠ ' '))
    | none => specSizeValue rest

/-- A syntactically valid integer: a non-empty string of ASCII digits. -/
def isDigitString (v : List Char) : Bool := !v.isEmpty && v.all Char.isDigit

/-- Postcondition of a successful `bufio.Reader.ReadSlice('\n')` call: the
returned slice ends with the delimiter. -/
def readSliceOk (l : List Char) : Prop := l.getLast? = some '\n'

/-- Claim C1 as stated: at every point in a session the envelope is non-null
iff a MAIL FROM has been accepted and neither an RSET, a QUIT, nor a terminal
DATA (terminator reached and close handled) has occurred since — i.e. the
recorded envelope nullness tracks the `claimStep` history fold. -/
def C1Claim : Prop :=
  ∀ (srv : ServerCfg) (input : List (List Char × OracleCmd)),
    tracksB claimStep false (serveTrace srv input) = true

/-- Claim C2 as stated: a received line that does not end in CRLF draws a
single 500 reply citing the framing fault and the session terminates — the
whole remaining trace is that one entry. -/
def C2Claim : Prop :=
  ∀ (srv : ServerCfg) (st : SessionSt) (l : List Char) (o : OracleCmd)
    (rest : List (List Char × OracleCmd)), hasSuffixCRLF l = false →
    serveAux srv (Mode.cmd st) ((l, o) :: rest) =
      [⟨["500 line doesn\x27t end in \\r\\n"], [], .badLine, st⟩]

/-- Claim C3 as stated: a valid command line whose verb is HELO is answered
with exactly the single reply line `250 <hostname>`. -/
def C3Claim : Prop :=
  ∀ (srv : ServerCfg) (st : SessionSt) (l : List Char) (o : OracleCmd),
    checkValid l = none → verb l = L "HELO" →
    ((runStep srv (Mode.cmd st) (l, o)).2.map fun e => e.replies) =
      [["250 " ++ srv.hostname]]

/-- Claim C4 as stated: a MAIL argument of shape `FROM:<addr>[ params]` whose
parameter text carries a `SIZE=<value>` parameter with a non-integer value is
answered `501 5.5.4` (no callback). -/
def C4Claim : Prop :=
  ∀ (a addr params v : List Char),
    mailFromMatch a = some (addr, params) → specSizeValue params = some v →
    isDigitString v = false → processMailArg a = .badSize

/-- Claim C8 as stated: processing a HELO or EHLO command, in any state,
leaves the envelope null. -/
def C8Claim : Prop :=
  ∀ (srv : ServerCfg) (st : SessionSt) (l : List Char) (o : OracleCmd)
    (e : CmdTrace), (runStep srv (Mode.cmd st) (l, o)).2 = [e] →
    e.ev = .hello → e.st.envSet = false

/-- Claim C9 as stated: the hostname of a mail address is the lower-cased
text after the LAST `@` (or empty without `@`). -/
def C9Claim : Prop :=
  (∀ (a pre post : List Char), a = pre ++ '@' :: post → post.contains '@' = false →
     hostnameOf a = goToLower post) ∧
  (∀ a : List Char, a.contains '@' = false → hostnameOf a = [])

/-- A server configuration used in concrete runs: hostname `h`, no AUTH, no
TLS, no SIZE. -/
def srv0 : ServerCfg := ⟨"h", false, false, 0⟩

/-- Oracle whose `BeginData` fails with a plain (non-SMTPError) error. -/
def oBD : OracleCmd := ⟨none, none, some (.plain "boom"), [], none, true, .plain ""⟩

/-- A session: MAIL FROM accepted, then DATA whose `BeginData` returns a plain
error. -/
def beginDataPlainInput : List (List Char × OracleCmd) :=
  [(L "MAIL FROM:<a@x>\r\n", dO), (L "DATA\r\n", oBD)]

/-! ## Theorems -/

/-- Each processed line either emits no trace entry and keeps the envelope
nullness of the mode, or emits exactly one entry whose recorded envelope equals
the `amendedStep` transition, the next mode carrying that value (or the
session being over). -/
theorem runStep_env (srv : ServerCfg) (m : Mode) (lo : List Char × OracleCmd) :
    ((runStep srv m lo).2 = [] ∧ envOfMode (runStep srv m lo).1 = envOfMode m) ∨
    (∃ e, (runStep srv m lo).2 = [e] ∧ e.st.envSet = amendedStep (envOfMode m) e.ev ∧
      ((runStep srv m lo).1 = Mode.done ∨ envOfMode (runStep srv m lo).1 = e.st.envSet)) := by
  obtain ⟨l, o⟩ := lo
  cases m with
  | done => left; exact ⟨rfl, rfl⟩
  | data st ws cl acc ds =>
    by_cases hd : l = dotCRLF
    · simp only [runStep, hd, if_pos]
      rcases cl with _ | (msg | msg)
      · right; exact ⟨_, rfl, rfl, Or.inr rfl⟩
      · right; exact ⟨_, rfl, rfl, Or.inr rfl⟩
      · right; exact ⟨_, rfl, rfl, Or.inr rfl⟩
    · simp only [runStep, hd, if_neg, if_false]
      rcases ws with _ | ⟨(_ | g), ws2⟩
      · left; exact ⟨rfl, rfl⟩
      · left; exact ⟨rfl, rfl⟩
      · right; exact ⟨_, rfl, rfl, Or.inr rfl⟩
  | cmd st =>
    simp only [runStep]
    cases hcv : checkValid l with
    | some msg => simp only [checkStep]; right; exact ⟨_, rfl, rfl, Or.inr rfl⟩
    | none =>
      simp only [checkStep]
      cases hv : verbTag (verb l) with
      | hello => simp only [verbStep]; right; exact ⟨_, rfl, rfl, Or.inr rfl⟩
      | starttls =>
        simp only [verbStep]
        by_cases ht : srv.tlsPresent
        · rw [if_pos ht]
          by_cases hk : o.tlsOk
          · rw [if_pos hk]; right; exact ⟨_, rfl, rfl, Or.inr rfl⟩
          · rw [if_neg hk]; right; exact ⟨_, rfl, rfl, Or.inr rfl⟩
        · rw [if_neg ht]; right; exact ⟨_, rfl, rfl, Or.inr rfl⟩
      | quit => simp only [verbStep]; right; exact ⟨_, rfl, rfl, Or.inl trivial⟩
      | rset => simp only [verbStep]; right; exact ⟨_, rfl, rfl, Or.inr rfl⟩
      | noop => simp only [verbStep]; right; exact ⟨_, rfl, rfl, Or.inr rfl⟩
      | mail =>
        simp only [verbStep]
        cases hm : processMailArg (arg l) with
        | badAddr => simp only [mailStep]; right; exact ⟨_, rfl, rfl, Or.inr rfl⟩
        | badSize => simp only [mailStep]; right; exact ⟨_, rfl, rfl, Or.inr rfl⟩
        | proceed a sz =>
          simp only [mailStep]
          by_cases henv : st.envSet
          · rw [if_pos henv]; right; exact ⟨_, rfl, rfl, Or.inr rfl⟩
          · rw [if_neg henv]
            cases hnm : o.newMail with
            | some g =>
              simp only [newMailStep]
              right
              refine ⟨_, rfl, ?_, Or.inl trivial⟩
              simp only [amendedStep, envOfMode]
              simp_all
            | none => simp only [newMailStep]; right; exact ⟨_, rfl, rfl, Or.inr rfl⟩
      | rcpt =>
        simp only [verbStep]
        by_cases henv : st.envSet
        · rw [if_pos henv]
          cases hr : rcptToMatch (arg l) with
          | none => simp only [rcptStep]; right; exact ⟨_, rfl, rfl, Or.inr rfl⟩
          | some a =>
            simp only [rcptStep]
            cases ha : o.addRcpt with
            | some g => right; exact ⟨_, rfl, rfl, Or.inr rfl⟩
            | none => right; exact ⟨_, rfl, rfl, Or.inr rfl⟩
        · rw [if_neg henv]; right; exact ⟨_, rfl, rfl, Or.inr rfl⟩
      | dataCmd =>
        simp only [verbStep]
        by_cases henv : st.envSet
        · rw [if_pos henv]
          cases hb : o.beginData with
          | some g =>
            cases g with
            | smtp msg => simp only [beginDataStep]; right; exact ⟨_, rfl, rfl, Or.inr rfl⟩
            | plain msg => simp only [beginDataStep]; right; exact ⟨_, rfl, rfl, Or.inr rfl⟩
          | none => simp only [beginDataStep]; left; constructor <;> trivial
        · rw [if_neg henv]; right; exact ⟨_, rfl, rfl, Or.inr rfl⟩
      | unknown => simp only [verbStep]; right; exact ⟨_, rfl, rfl, Or.inr rfl⟩

/-- After the session has closed, no further lines are processed. -/
theorem serveAux_done (srv : ServerCfg) (input : List (List Char × OracleCmd)) :
    serveAux srv Mode.done input = [] := by
  induction input with
  | nil => rfl
  | cons lo rest ih => simpa only [serveAux, runStep, List.nil_append] using ih

/-- The envelope nullness of the session follows the `amendedStep` history fold,
from any mode. -/
theorem serveAux_tracks (srv : ServerCfg) (input : List (List Char × OracleCmd))
    (m : Mode) : tracksB amendedStep (envOfMode m) (serveAux srv m input) = true := by
  induction input generalizing m with
  | nil =>
    cases m with
    | cmd st => rfl
    | done => rfl
    | data st ws cl acc ds => simp [serveAux, tracksB, amendedStep, envOfMode]
  | cons lo rest ih =>
    simp only [serveAux]
    rcases runStep_env srv m lo with ⟨h1, h2⟩ | ⟨e, h1, h2, h3⟩
    · rw [h1, List.nil_append, ← h2]
      exact ih _
    · rw [h1, List.singleton_append]
      simp only [tracksB, ← h2, beq_self_eq_true, Bool.true_and]
      rcases h3 with h3 | h3
      · rw [h3, serveAux_done]; rfl
      · rw [← h3]; exact ih _

/-- C1, counterexample: in the session `MAIL FROM:<a@x>` (accepted) then
`DATA` whose `BeginData` returns a plain error, the envelope is null although
a MAIL FROM was accepted and no RSET/QUIT/terminal-DATA occurred since
(`handleError` cleared it), so the invariant as stated fails. -/
theorem c1_counterexample : ¬ C1Claim := by
  intro h
  have h2 := h srv0 beginDataPlainInput
  rw [show tracksB claimStep false (serveTrace srv0 beginDataPlainInput) = false
        from by decide] at h2
  exact Bool.false_ne_true h2

/-- C1 (amended): at every point in a session the envelope is non-null iff a
MAIL FROM has been accepted and none of the clearing events has occurred
since: an RSET, a terminal DATA whose close succeeded or failed with a plain
error, or a begin-data that failed with a plain error.  (QUIT and a rejected
MAIL end the session without touching the field, and a terminal DATA whose
close returned an SMTP-reply error leaves the envelope set.)  Formally the
recorded envelope nullness tracks the `amendedStep` history fold. -/
theorem c1_envelope_invariant (srv : ServerCfg) (input : List (List Char × OracleCmd)) :
    tracksB amendedStep false (serveTrace srv input) = true :=
  serveAux_tracks srv input (Mode.cmd initSt)

/-- C2 (amended): a received line that does not end in CRLF draws exactly one
reply, `500` citing the framing fault, and the session CONTINUES with
unchanged state (`continue`, not termination). -/
theorem c2_framing_500_continues (srv : ServerCfg) (st : SessionSt) (l : List Char)
    (o : OracleCmd) (rest : List (List Char × OracleCmd))
    (h : hasSuffixCRLF l = false) :
    serveAux srv (Mode.cmd st) ((l, o) :: rest) =
      ⟨["500 line doesn\x27t end in \\r\\n"], [], .badLine, st⟩ ::
        serveAux srv (Mode.cmd st) rest := by
  have hcv : checkValid l = some "line doesn\x27t end in \\r\\n" := by
    simp [checkValid, h]
  simp only [serveAux, runStep, hcv, checkStep, List.singleton_append]
  rfl

/-- C2, counterexample: after the framing fault the session is NOT
terminated — a subsequent `NOOP` is still processed and answered. -/
theorem c2_counterexample : ¬ C2Claim := by
  intro h
  have h2 := h srv0 initSt (L "NOOP\n") dO [(L "NOOP\r\n", dO)] (by decide)
  exact absurd h2 (by decide)

/-- C2, witness for the amended theorem at the line `NOOP\n`. -/
theorem c2_witness :
    hasSuffixCRLF (L "NOOP\n") = false ∧
    serveAux srv0 (Mode.cmd initSt) [(L "NOOP\n", dO), (L "NOOP\r\n", dO)] =
      ⟨["500 line doesn\x27t end in \\r\\n"], [], .badLine, initSt⟩ ::
        serveAux srv0 (Mode.cmd initSt) [(L "NOOP\r\n", dO)] :=
  ⟨by decide, c2_framing_500_continues srv0 initSt (L "NOOP\n") dO [(L "NOOP\r\n", dO)] (by decide)⟩

/-- C3, counterexample: `HELO x` against the hostname-`h` server is answered
with the five-line extension reply starting `250-h`, not the single line
`250 h`. -/
theorem c3_counterexample : ¬ C3Claim := by
  intro h
  have h2 := h srv0 initSt (L "HELO x\r\n") dO (by decide) (by decide)
  exact absurd h2 (by decide)

/-- C3 (amended): a valid HELO command is answered with the same multi-line
extension reply as EHLO (`handleHello` does not distinguish the two): its
reply is `helloReplyLines`, whose first line is `250-<hostname>`. -/
theorem c3_helo_multiline (srv : ServerCfg) (st : SessionSt) (l : List Char) (o : OracleCmd)
    (hcv : checkValid l = none) (hverb : verb l = L "HELO" ∨ verb l = L "EHLO") :
    ((runStep srv (Mode.cmd st) (l, o)).2.map fun e => e.replies) = [helloReplyLines srv] := by
  have hv : verbTag (verb l) = .hello := by
    rcases hverb with h | h <;> rw [h] <;> decide
  simp only [runStep, hcv, checkStep, hv, verbStep, List.map]

/-- C3, witness for the amended theorem at `HELO mail.example.com`. -/
theorem c3_witness :
    checkValid (L "HELO mail.example.com\r\n") = none ∧
    ((runStep srv0 (Mode.cmd initSt) (L "HELO mail.example.com\r\n", dO)).2.map
        fun e => e.replies) = [helloReplyLines srv0] :=
  ⟨by decide,
   c3_helo_multiline srv0 initSt (L "HELO mail.example.com\r\n") dO (by decide)
     (Or.inl (by decide))⟩

/-- C5, the code bug evaluated: in the session `MAIL FROM:<a@x>` (accepted)
then `DATA` whose `BeginData` returns a plain error, the DATA command
completes with ZERO reply lines (`handleError` only logs for non-SMTP errors)
while the session goes on — contradicting "every command yields at least one
reply". -/
theorem c5_data_zero_replies :
    serveTrace srv0 beginDataPlainInput =
      [⟨["250 2.1.0 Ok"], [], .mailAccepted, ⟨true, [], []⟩⟩,
       ⟨[], [], .dataBeginPlainErr, ⟨false, [], []⟩⟩] := by decide

/-- C8, counterexample: a `HELO x` processed while an envelope is present
leaves the envelope non-null (`handleHello` never touches `s.env`). -/
theorem c8_counterexample : ¬ C8Claim := by
  intro h
  have h2 := h srv0 ⟨true, [], []⟩ (L "HELO x\r\n") dO
    ⟨helloReplyLines srv0, [], .hello, ⟨true, L "HELO", L "x"⟩⟩ (by decide) rfl
  exact absurd h2 (by decide)

/-- C8 (amended): processing a valid HELO or EHLO command records the
greeting verb and host and sends the extension reply, but leaves the
nullness of the envelope exactly as it was (it does NOT clear it). -/
theorem c8_hello_keeps_env (srv : ServerCfg) (st : SessionSt) (l : List Char) (o : OracleCmd)
    (hcv : checkValid l = none) (hverb : verb l = L "HELO" ∨ verb l = L "EHLO") :
    runStep srv (Mode.cmd st) (l, o) =
      (Mode.cmd ⟨st.envSet, verb l, arg l⟩,
       [⟨helloReplyLines srv, [], .hello, ⟨st.envSet, verb l, arg l⟩⟩]) := by
  have hv : verbTag (verb l) = .hello := by
    rcases hverb with h | h <;> rw [h] <;> decide
  simp only [runStep, hcv, checkStep, hv, verbStep]

/-- C8, witness for the amended theorem: `EHLO x` in a state with an
envelope; the envelope stays set. -/
theorem c8_witness :
    checkValid (L "EHLO x\r\n") = none ∧
    runStep srv0 (Mode.cmd ⟨true, [], []⟩) (L "EHLO x\r\n", dO) =
      (Mode.cmd ⟨true, L "EHLO", L "x"⟩,
       [⟨helloReplyLines srv0, [], .hello, ⟨true, L "EHLO", L "x"⟩⟩]) := by
  refine ⟨by decide, ?_⟩
  have h := c8_hello_keeps_env srv0 ⟨true, [], []⟩ (L "EHLO x\r\n") dO (by decide)
    (Or.inr (by decide))
  rw [h]
  decide

/-- C10: a line on which the buffered read succeeded ends in the `\n`
delimiter, hence is non-empty, so the `sl[0]` dot test of `handleData` is
in bounds: the head exists and `unstuff` performs exactly the Go comparison
on it. -/
theorem c10_dot_index_safe (l : List Char) (h : readSliceOk l) :
    l ≠ [] ∧ ∃ c, l.head? = some c ∧ unstuff l = (if c = '.' then l.tail else l) := by
  have hne : l ≠ [] := by
    intro he
    rw [he] at h
    simp [readSliceOk] at h
  refine ⟨hne, ?_⟩
  cases l with
  | nil => exact absurd rfl hne
  | cons c t =>
    refine ⟨c, rfl, ?_⟩
    unfold unstuff
    by_cases hc : c = '.' <;> simp [hc]

/-- C10, witness at the line `.x\n`. -/
theorem c10_witness :
    readSliceOk (L ".x\n") ∧
    ((L ".x\n") ≠ [] ∧ ∃ c, (L ".x\n").head? = some c ∧
      unstuff (L ".x\n") = (if c = '.' then (L ".x\n").tail else (L ".x\n"))) :=
  ⟨by unfold readSliceOk; decide, c10_dot_index_safe (L ".x\n") (by unfold readSliceOk; decide)⟩

/-- C7: the reply `handleHello` writes equals, for every configuration, the
EHLO reply of the spec: hostname first, then the enabled extensions in the
documented order, `250-` on every line but the last and `250 ` on the last. -/
theorem c7_ehlo_reply (srv : ServerCfg) : helloReplyLines srv = specEhloReply srv := by
  obtain ⟨h, pa, tls, ms⟩ := srv
  by_cases hpa : pa <;> by_cases htl : tls <;> by_cases hms : ms = 0 <;>
    simp only [helloReplyLines, specEhloReply, hpa, htl, hms, if_true, if_false,
      Bool.true_eq_false, Bool.false_eq_true, ite_true, ite_false, ne_eq,
      not_true_eq_false, not_false_eq_true, List.cons_append, List.nil_append,
      List.singleton_append, addPrefixes] <;> rfl

/-- C9, counterexample: on `x@B@C`, whose last `@` is followed by `C`, the
code produces `b@c` (it splits at the FIRST `@`), not `c`. -/
theorem c9_counterexample : ¬ C9Claim := by
  intro h
  have h2 := h.1 (L "x@B@C") (L "x@B") (L "C") (by decide) (by decide)
  exact absurd h2 (by decide)

/-- C9 (amended): the exposed hostname is the lower-cased substring after the
FIRST `@` of the email string (`strings.Index`), or empty when there is no
`@`. -/
theorem c9_hostname_first_at :
    (∀ (a pre post : List Char), a = pre ++ '@' :: post → pre.contains '@' = false →
       hostnameOf a = goToLower post) ∧
    (∀ a : List Char, a.contains '@' = false → hostnameOf a = []) := by
  constructor
  · intro a pre post ha hpre
    subst ha
    have hmem : '@' ∉ pre := by simpa using hpre
    unfold hostnameOf
    rw [if_pos]
    · have hdw : (pre ++ '@' :: post).dropWhile (· ≠ '@') = '@' :: post := by
        rw [List.dropWhile_append]
        have h1 : (pre.dropWhile (· ≠ '@')).isEmpty = true := by
          rw [List.isEmpty_iff, List.dropWhile_eq_nil_iff]
          intro x hx
          simp only [ne_eq, decide_eq_true_eq]
          intro hq
          exact hmem (hq ▸ hx)
        rw [if_pos h1, List.dropWhile_cons]
        simp
      rw [hdw]
      rfl
    · simp
  · intro a h
    unfold hostnameOf
    rw [if_neg]
    intro hc
    rw [h] at hc
    exact Bool.false_ne_true hc

/-- C9, witness for the amended theorem at `x@B@C`: the hostname is `b@c`,
the lower-cased text after the first `@`. -/
theorem c9_witness :
    (L "x@B@C") = (L "x") ++ '@' :: (L "B@C") ∧ (L "x").contains '@' = false ∧
    hostnameOf (L "x@B@C") = goToLower (L "B@C") :=
  ⟨by decide, by decide,
   c9_hostname_first_at.1 (L "x@B@C") (L "x") (L "B@C") (by decide) (by decide)⟩

/-- C4, counterexample: the argument `FROM:<a@x> SIZE=xyz` carries a SIZE
parameter whose value `xyz` is not an integer, yet `mailSizeRE` (which only
matches digit runs) does not recognize it, so the server proceeds to the
on-new-mail callback with no size instead of replying `501 5.5.4`. -/
theorem c4_counterexample : ¬ C4Claim := by
  intro h
  have h2 := h (L "FROM:<a@x> SIZE=xyz") (L "a@x") (L " SIZE=xyz") (L "xyz")
    (by decide) (by decide) (by decide)
  exact absurd h2 (by decide)

/-- C4 (amended): for a syntactically valid MAIL argument, `501 5.5.4` is
replied exactly when the parameter text contains `SIZE=<digits>` whose digit
run `strconv.Atoi` rejects (it overflows the 64-bit int); a `SIZE=` whose
value is not a digit run is not matched by the regex and the callback is
invoked without a size. -/
theorem c4_size_501_only_on_atoi_failure (a addr params : List Char)
    (h : mailFromMatch a = some (addr, params)) :
    (processMailArg a = .badSize ↔
      ∃ ds, mailSizeFind params = some ds ∧ goAtoi ds = none) := by
  simp only [processMailArg, h]
  by_cases hp : 0 < params.length
  · rw [if_pos hp]
    cases hf : mailSizeFind params with
    | none => simp
    | some ds =>
      cases hg : goAtoi ds with
      | none => simp [hg]
      | some n => simp [hg]
  · rw [if_neg hp]
    have hnil : params = [] := by
      rcases params with _ | ⟨c, r⟩
      · rfl
      · simp at hp
    subst hnil
    simp [mailSizeFind]

/-- C4, witness for the amended theorem: a 20-digit SIZE overflows the 64-bit
int, `Atoi` fails, and the reply is `501 5.5.4`. -/
theorem c4_witness :
    mailFromMatch (L "FROM:<a@x> SIZE=99999999999999999999") =
      some (L "a@x", L " SIZE=99999999999999999999") ∧
    (processMailArg (L "FROM:<a@x> SIZE=99999999999999999999") = .badSize ↔
      ∃ ds, mailSizeFind (L " SIZE=99999999999999999999") = some ds ∧ goAtoi ds = none) :=
  ⟨by decide,
   c4_size_501_only_on_atoi_failure (L "FROM:<a@x> SIZE=99999999999999999999")
     (L "a@x") (L " SIZE=99999999999999999999") (by decide)⟩

/-- A line ends in CRLF exactly when it is some prefix followed by `\r\n`. -/
theorem hasSuffixCRLF_iff (l : List Char) :
    hasSuffixCRLF l = true ↔ ∃ u, l = u ++ ['\r', '\n'] := by
  unfold hasSuffixCRLF
  constructor
  · intro h
    cases hr : l.reverse with
    | nil => rw [hr] at h; simp at h
    | cons a r =>
      cases r with
      | nil => rw [hr] at h; simp at h
      | cons b r2 =>
        rw [hr] at h
        simp only [Bool.and_eq_true, beq_iff_eq] at h
        obtain ⟨ha, hb⟩ := h
        refine ⟨r2.reverse, ?_⟩
        rw [← List.reverse_reverse l, hr, ha, hb]
        simp
  · rintro ⟨u, rfl⟩
    have hrev : (u ++ ['\r', '\n']).reverse = '\n' :: '\r' :: u.reverse := by simp
    rw [hrev]
    rfl

/-- Dot-unstuffing a CRLF-terminated line keeps the CRLF terminator. -/
theorem unstuff_keeps_crlf (l : List Char) (h : hasSuffixCRLF l = true) :
    hasSuffixCRLF (unstuff l) = true := by
  unfold unstuff
  by_cases hh : l.head? = some '.'
  · rw [if_pos hh]
    obtain ⟨u, rfl⟩ := (hasSuffixCRLF_iff l).mp h
    cases u with
    | nil => simp at hh
    | cons c u2 =>
      rw [hasSuffixCRLF_iff]
      exact ⟨u2, by simp⟩
  · rw [if_neg hh]
    exact h

/-- A DATA body whose lines all write successfully and that contains the
`.\r\n` terminator: the lines before the terminator are delivered
dot-unstuffed, `Close` succeeding replies `250 2.0.0 Ok: queued`, the
envelope is cleared, and the loop resumes after the terminator. -/
theorem serveAux_data_success (srv : ServerCfg) (st : SessionSt) (acc : List String)
    (body : List (List Char × OracleCmd)) (ds0 : List (List Char))
    (h : dotCRLF ∈ body.map Prod.fst) :
    serveAux srv (Mode.data st [] none acc ds0) body =
      ⟨acc ++ ["250 2.0.0 Ok: queued"],
       ds0 ++ ((body.map Prod.fst).takeWhile (· ≠ dotCRLF)).map unstuff,
       .dataClosedOk, clearEnv st⟩ ::
      serveAux srv (Mode.cmd (clearEnv st))
        (body.drop (((body.map Prod.fst).takeWhile (· ≠ dotCRLF)).length + 1)) := by
  induction body generalizing ds0 with
  | nil => simp at h
  | cons lo rest ih =>
    obtain ⟨l, o⟩ := lo
    by_cases hl : l = dotCRLF
    · subst hl
      have hrs : runStep srv (Mode.data st [] none acc ds0) (dotCRLF, o) =
          (Mode.cmd (clearEnv st),
           [⟨acc ++ ["250 2.0.0 Ok: queued"], ds0, .dataClosedOk, clearEnv st⟩]) := rfl
      simp only [serveAux, hrs, List.singleton_append, List.map_cons]
      rw [List.takeWhile_cons, if_neg (by simp)]
      simp
    · have hmem : dotCRLF ∈ rest.map Prod.fst := by
        have h2 : dotCRLF ∈ l :: rest.map Prod.fst := by
          rw [List.map_cons] at h
          exact h
        rcases List.mem_cons.mp h2 with h1 | h1
        · exact absurd h1.symm hl
        · exact h1
      simp only [serveAux, runStep]
      rw [if_neg hl]
      simp only [dataWriteStep, List.nil_append]
      rw [ih (ds0 ++ [unstuff l]) hmem]
      simp only [List.map_cons, List.takeWhile_cons]
      rw [if_pos (by simp [hl])]
      simp [List.append_assoc]

/-- C6: during DATA body reading, a line equal to `.\r\n` ends the data phase
and is never delivered (only the lines strictly before it are, dot-unstuffed);
a delivered line beginning with `.` loses exactly its first byte; delivered
lines keep their trailing CRLF; and on successful close the reply is
`250 2.0.0 Ok: queued` and the envelope is cleared. -/
theorem c6_data_phase (srv : ServerCfg) (st : SessionSt)
    (body : List (List Char × OracleCmd)) (h : dotCRLF ∈ body.map Prod.fst) :
    (serveAux srv (Mode.data st [] none ["354 Go ahead"] []) body =
      ⟨["354 Go ahead", "250 2.0.0 Ok: queued"],
       ((body.map Prod.fst).takeWhile (· ≠ dotCRLF)).map unstuff,
       .dataClosedOk, clearEnv st⟩ ::
      serveAux srv (Mode.cmd (clearEnv st))
        (body.drop (((body.map Prod.fst).takeWhile (· ≠ dotCRLF)).length + 1))) ∧
    (∀ l ∈ (body.map Prod.fst).takeWhile (· ≠ dotCRLF),
      (l.head? = some '.' → unstuff l = l.tail) ∧
      (hasSuffixCRLF l = true → hasSuffixCRLF (unstuff l) = true)) := by
  constructor
  · have hmain := serveAux_data_success srv st ["354 Go ahead"] body [] h
    simpa using hmain
  · intro l hl
    constructor
    · intro hh
      unfold unstuff
      rw [if_pos hh]
    · exact unstuff_keeps_crlf l

/-- C6, witness: the body `..foo`, `.` (then `QUIT`): `..foo\r\n` is delivered
as `.foo\r\n`, the terminator is not delivered, the reply is
`354 Go ahead` then `250 2.0.0 Ok: queued`, and the envelope is cleared. -/
theorem c6_witness :
    dotCRLF ∈ ([(L "..foo\r\n", dO), (L ".\r\n", dO), (L "QUIT\r\n", dO)].map Prod.fst) ∧
    ((serveAux srv0 (Mode.data ⟨true, [], []⟩ [] none ["354 Go ahead"] [])
        [(L "..foo\r\n", dO), (L ".\r\n", dO), (L "QUIT\r\n", dO)] =
      ⟨["354 Go ahead", "250 2.0.0 Ok: queued"],
       ((([(L "..foo\r\n", dO), (L ".\r\n", dO), (L "QUIT\r\n", dO)].map Prod.fst).takeWhile
          (· ≠ dotCRLF)).map unstuff),
       .dataClosedOk, clearEnv ⟨true, [], []⟩⟩ ::
      serveAux srv0 (Mode.cmd (clearEnv ⟨true, [], []⟩))
        ([(L "..foo\r\n", dO), (L ".\r\n", dO), (L "QUIT\r\n", dO)].drop
          ((([(L "..foo\r\n", dO), (L ".\r\n", dO), (L "QUIT\r\n", dO)].map Prod.fst).takeWhile
            (· ≠ dotCRLF)).length + 1))) ∧
    (∀ l ∈ (([(L "..foo\r\n", dO), (L ".\r\n", dO), (L "QUIT\r\n", dO)].map Prod.fst).takeWhile
        (· ≠ dotCRLF)),
      (l.head? = some '.' → unstuff l = l.tail) ∧
      (hasSuffixCRLF l = true → hasSuffixCRLF (unstuff l) = true))) :=
  ⟨by decide,
   c6_data_phase srv0 ⟨true, [], []⟩ [(L "..foo\r\n", dO), (L ".\r\n", dO), (L "QUIT\r\n", dO)]
     (by decide)⟩

end Smtpd
